import Mathlib

/-!
Verification of the clomonitor primary linter
(src/clomonitor-core/src/linter/primary.rs).

The linter resolves each checklist item by consulting an ordered list of
evidence sources with short-circuiting OR semantics.  The evidence
primitives (path existence, content match, remote API calls, license
detection) live outside the given source material, so they are modelled
as an environment of oracles, each returning an `Except` value.  Every
invocation of a primitive is logged in an explicit call trace, so that
"source k+1 is never evaluated" becomes a statement about the trace.
-/

namespace Clomonitor

/-- Error values carried by failing evidence sources (anyhow::Error in the
source, classified by the taxonomy of the spec). -/
inductive LintErr where
  | ioErr (msg : String)
  | fetchErr (msg : String)
  | configErr (msg : String)
deriving DecidableEq, Repr

/-- Static glob-pattern constants (ADOPTERS_FILE, README_FILE, ... from
patterns.rs), identified by name. -/
inductive PatternSet where
  | adoptersFile
  | codeOfConductFile
  | contributingFile
  | changelogFile
  | governanceFile
  | maintainersFile
  | readmeFile
  | roadmapFile
  | securityPolicyFile
  | licenseFile
deriving DecidableEq, Repr

/-- Static content-pattern constants (regexes from patterns.rs), identified
by name. -/
inductive Pat where
  | adoptersHeader
  | codeOfConductHeader
  | contributingHeader
  | changelogHeader
  | governanceHeader
  | roadmapHeader
  | securityPolicyHeader
  | artifacthubBadgeUrl
  | communityMeetingText
  | openssfBadgeUrl
  | changelogRelease
  | trademarkFooter
  | fossaUrl
  | snykUrl
deriving DecidableEq, Repr

/-- One logged invocation of an evidence primitive, with its arguments. -/
inductive Call where
  | pathExists (ps : PatternSet) (caseSensitive : Bool)
  | contentMatches (ps : PatternSet) (caseSensitive : Bool) (p : Pat)
  | contentFind (ps : PatternSet) (caseSensitive : Bool) (pats : List Pat)
  | hasDefaultCommunityHealthFile (name : String)
  | lastReleaseBodyMatches (p : Pat)
  | commitsHaveDcoSignature
  | lastPrHasDcoCheck
  | hasRecentRelease
  | remoteMatches (url : String) (p : Pat)
  | licenseDetect (ps : PatternSet) (caseSensitive : Bool)
  | metadataLoad
  | getGithubMetadata
deriving DecidableEq, Repr

/-- octocrab Repository license field: only spdx_id is consulted. -/
structure GhLicense where
  spdx_id : String
deriving DecidableEq, Repr

/-- octocrab Repository metadata: only the fields consulted by primary.rs. -/
structure Repository where
  homepage : Option String
  license : Option GhLicense
deriving DecidableEq, Repr

/-- license_scanning entry of the project-local .clomonitor.yml metadata. -/
structure LicenseScanning where
  url : Option String
deriving DecidableEq, Repr

/-- Project-local CLOMonitor metadata (Metadata struct from metadata.rs). -/
structure Metadata where
  license_scanning : Option LicenseScanning
deriving DecidableEq, Repr

/-- Environment of evidence-source oracles.  Each field gives the outcome
the corresponding primitive would produce when invoked with the recorded
arguments during this lint run. -/
structure Env where
  pathExists : PatternSet → Bool → Except LintErr Bool
  contentMatches : PatternSet → Bool → Pat → Except LintErr Bool
  contentFind : PatternSet → Bool → List Pat → Except LintErr (Option String)
  hasDefaultCommunityHealthFile : String → Except LintErr Bool
  lastReleaseBodyMatches : Pat → Except LintErr Bool
  commitsHaveDcoSignature : Except LintErr Bool
  lastPrHasDcoCheck : Except LintErr Bool
  hasRecentRelease : Except LintErr Bool
  remoteMatches : String → Pat → Except LintErr Bool
  licenseDetect : PatternSet → Bool → Except LintErr (Option String)
  isApproved : String → Bool
  metadataLoad : Except LintErr (Option Metadata)
  getGithubMetadata : Except LintErr Repository

/-- A linting computation: threads the call trace and may fail. -/
def LintM (α : Type) : Type := List Call → Except LintErr α × List Call

/-- Pure result, no primitive invoked. -/
def retL {α : Type} (a : α) : LintM α := fun t => (Except.ok a, t)

/-- Invoke a primitive: log the call, return the outcome fixed by the oracle. -/
def call {α : Type} (c : Call) (r : Except LintErr α) : LintM α :=
  fun t => (r, t ++ [c])

/-- Sequencing with error propagation (the Rust postfix question-mark). -/
def bindL {α β : Type} (m : LintM α) (f : α → LintM β) : LintM β := fun t =>
  match m t with
  | (Except.ok a, t1) => f a t1
  | (Except.error e, t1) => (Except.error e, t1)

/-- The Rust short-circuiting boolean OR over two fallible sources: the
second source runs only when the first returns ok false. -/
def orL (x y : LintM Bool) : LintM Bool := fun t =>
  match x t with
  | (Except.ok true, t1) => (Except.ok true, t1)
  | (Except.ok false, t1) => y t1
  | (Except.error e, t1) => (Except.error e, t1)

/-- The Rust Result::unwrap_or(false): degrade an error to false. -/
def unwrapOrFalse : Except LintErr Bool → Bool
  | Except.ok b => b
  | Except.error _ => false

/-- Instrumented check::path::exists. -/
def pathExistsC (env : Env) (ps : PatternSet) (cs : Bool) : LintM Bool :=
  call (Call.pathExists ps cs) (env.pathExists ps cs)

/-- Instrumented check::content::matches. -/
def contentMatchesC (env : Env) (ps : PatternSet) (cs : Bool) (p : Pat) : LintM Bool :=
  call (Call.contentMatches ps cs p) (env.contentMatches ps cs p)

/-- Instrumented check::content::find. -/
def contentFindC (env : Env) (ps : PatternSet) (cs : Bool) (pats : List Pat) :
    LintM (Option String) :=
  call (Call.contentFind ps cs pats) (env.contentFind ps cs pats)

/-- Instrumented check::github::has_default_community_health_file. -/
def communityHealthC (env : Env) (name : String) : LintM Bool :=
  call (Call.hasDefaultCommunityHealthFile name) (env.hasDefaultCommunityHealthFile name)

/-- Instrumented check::github::last_release_body_matches. -/
def lastReleaseBodyMatchesC (env : Env) (p : Pat) : LintM Bool :=
  call (Call.lastReleaseBodyMatches p) (env.lastReleaseBodyMatches p)

/-- Instrumented check::license::detect. -/
def licenseDetectC (env : Env) (ps : PatternSet) (cs : Bool) : LintM (Option String) :=
  call (Call.licenseDetect ps cs) (env.licenseDetect ps cs)

/-- Documentation section of the report (primary.rs lines 19-31). -/
structure Documentation where
  adopters : Bool
  code_of_conduct : Bool
  contributing : Bool
  changelog : Bool
  governance : Bool
  maintainers : Bool
  readme : Bool
  roadmap : Bool
  website : Bool
deriving DecidableEq, Repr

/-- License section of the report (primary.rs lines 34-40). -/
structure License where
  approved : Option Bool
  scanning : Option String
  spdx_id : Option String
deriving DecidableEq, Repr

/-- BestPractices section of the report (primary.rs lines 43-51). -/
structure BestPractices where
  artifacthub_badge : Bool
  community_meeting : Bool
  dco : Bool
  openssf_badge : Bool
  recent_release : Bool
deriving DecidableEq, Repr

/-- Security section of the report (primary.rs lines 54-58). -/
structure Security where
  security_policy : Bool
deriving DecidableEq, Repr

/-- Legal section of the report (primary.rs lines 61-65). -/
structure Legal where
  trademark_footer : Bool
deriving DecidableEq, Repr

/-- A linter report for a repository of kind primary (primary.rs lines 8-16). -/
structure Report where
  documentation : Documentation
  license : License
  best_practices : BestPractices
  security : Security
  legal : Legal
deriving DecidableEq, Repr

/-- Adopters checklist item (primary.rs lines 99-110): ADOPTERS file exists
(case-insensitive) OR README contains the adopters header. -/
def adopters (env : Env) : LintM Bool :=
  orL (pathExistsC env PatternSet.adoptersFile false)
      (contentMatchesC env PatternSet.readmeFile true Pat.adoptersHeader)

/-- Code of conduct checklist item (primary.rs lines 113-125): local file OR
README header OR organization default community-health file. -/
def code_of_conduct (env : Env) : LintM Bool :=
  orL (orL (pathExistsC env PatternSet.codeOfConductFile false)
           (contentMatchesC env PatternSet.readmeFile true Pat.codeOfConductHeader))
      (communityHealthC env "CODE_OF_CONDUCT.md")

/-- Contributing checklist item (primary.rs lines 128-140). -/
def contributing (env : Env) : LintM Bool :=
  orL (orL (pathExistsC env PatternSet.contributingFile false)
           (contentMatchesC env PatternSet.readmeFile true Pat.contributingHeader))
      (communityHealthC env "CONTRIBUTING.md")

/-- Changelog checklist item (primary.rs lines 143-155): local file OR README
header OR last release body matches the changelog pattern. -/
def changelog (env : Env) : LintM Bool :=
  orL (orL (pathExistsC env PatternSet.changelogFile false)
           (contentMatchesC env PatternSet.readmeFile true Pat.changelogHeader))
      (lastReleaseBodyMatchesC env Pat.changelogRelease)

/-- Governance checklist item (primary.rs lines 158-169). -/
def governance (env : Env) : LintM Bool :=
  orL (pathExistsC env PatternSet.governanceFile false)
      (contentMatchesC env PatternSet.readmeFile true Pat.governanceHeader)

/-- Maintainers checklist item (primary.rs lines 172-176): single
case-insensitive path-existence check. -/
def maintainers (env : Env) : LintM Bool :=
  pathExistsC env PatternSet.maintainersFile false

/-- Readme checklist item (primary.rs lines 179-183): single CASE-SENSITIVE
path-existence check. -/
def readme (env : Env) : LintM Bool :=
  pathExistsC env PatternSet.readmeFile true

/-- Roadmap checklist item (primary.rs lines 186-197). -/
def roadmap (env : Env) : LintM Bool :=
  orL (pathExistsC env PatternSet.roadmapFile false)
      (contentMatchesC env PatternSet.readmeFile true Pat.roadmapHeader)

/-- Website checklist item (primary.rs lines 200-203): homepage is a
non-empty URL; a pure test of the prefetched metadata, no primitive call. -/
def website (gh_md : Repository) : Bool :=
  match gh_md.homepage with
  | some url => !url.isEmpty
  | none => false

/-- lint_documentation (primary.rs lines 93-216). -/
def lint_documentation (env : Env) (gh_md : Repository) : LintM Documentation :=
  bindL (adopters env) fun adoptersV =>
  bindL (code_of_conduct env) fun cocV =>
  bindL (contributing env) fun contributingV =>
  bindL (changelog env) fun changelogV =>
  bindL (governance env) fun governanceV =>
  bindL (maintainers env) fun maintainersV =>
  bindL (readme env) fun readmeV =>
  bindL (roadmap env) fun roadmapV =>
  retL { adopters := adoptersV
         code_of_conduct := cocV
         contributing := contributingV
         changelog := changelogV
         governance := governanceV
         maintainers := maintainersV
         readme := readmeV
         roadmap := roadmapV
         website := website gh_md }

/-- The nested if-lets of primary.rs lines 242-248: the project-local
license-scanning URL override, when all three layers are present. -/
def scanning_override (md : Option Metadata) : Option String :=
  match md with
  | some m =>
    match m.license_scanning with
    | some ls => ls.url
    | none => none
  | none => none

/-- The spdx_id resolution of primary.rs lines 221-232: the locally detected
identifier when detection succeeded, else the declared license identifier
unless it is the NOASSERTION sentinel. -/
def resolved_spdx_id (detected : Option String) (gh_md : Repository) : Option String :=
  match detected with
  | some id => some id
  | none =>
    match gh_md.license with
    | some license => if license.spdx_id ≠ "NOASSERTION" then some license.spdx_id else none
    | none => none

/-- The approved derivation of primary.rs lines 235-238: absent when no
identifier was resolved, else the approved-list membership test. -/
def resolved_approved (env : Env) (spdx_id : Option String) : Option Bool :=
  match spdx_id with
  | some id => some (env.isApproved id)
  | none => none

/-- lint_license (primary.rs lines 219-265): detect the SPDX id from local
license files, else fall back to the declared license unless it is the
NOASSERTION sentinel; derive approved from the resolved id; resolve the
scanning URL from the metadata override, else search the README. -/
def lint_license (env : Env) (md : Option Metadata) (gh_md : Repository) : LintM License :=
  bindL (licenseDetectC env PatternSet.licenseFile true) fun detected =>
  let spdx_id : Option String := resolved_spdx_id detected gh_md
  let approved : Option Bool := resolved_approved env spdx_id
  match scanning_override md with
  | some url => retL { approved := approved, scanning := some url, spdx_id := spdx_id }
  | none =>
    bindL (contentFindC env PatternSet.readmeFile true [Pat.fossaUrl, Pat.snykUrl]) fun found =>
    retL { approved := approved, scanning := found, spdx_id := spdx_id }

/-- DCO checklist item (primary.rs lines 290-291): the best-effort local git
inspection (its error degraded to false by unwrap_or) OR the remote check of
the last pull request. -/
def dco (env : Env) : LintM Bool :=
  orL (call Call.commitsHaveDcoSignature (Except.ok (unwrapOrFalse env.commitsHaveDcoSignature)))
      (call Call.lastPrHasDcoCheck env.lastPrHasDcoCheck)

/-- lint_best_practices (primary.rs lines 268-313). -/
def lint_best_practices (env : Env) : LintM BestPractices :=
  bindL (contentMatchesC env PatternSet.readmeFile true Pat.artifacthubBadgeUrl) fun ahV =>
  bindL (contentMatchesC env PatternSet.readmeFile true Pat.communityMeetingText) fun cmV =>
  bindL (dco env) fun dcoV =>
  bindL (contentMatchesC env PatternSet.readmeFile true Pat.openssfBadgeUrl) fun obV =>
  bindL (call Call.hasRecentRelease env.hasRecentRelease) fun rrV =>
  retL { artifacthub_badge := ahV
         community_meeting := cmV
         dco := dcoV
         openssf_badge := obV
         recent_release := rrV }

/-- Security policy checklist item (primary.rs lines 318-330). -/
def security_policy (env : Env) : LintM Bool :=
  orL (orL (pathExistsC env PatternSet.securityPolicyFile false)
           (contentMatchesC env PatternSet.readmeFile true Pat.securityPolicyHeader))
      (communityHealthC env "SECURITY.md")

/-- lint_security (primary.rs lines 316-333). -/
def lint_security (env : Env) : LintM Security :=
  bindL (security_policy env) fun spV =>
  retL { security_policy := spV }

/-- lint_legal (primary.rs lines 336-346): the trademark-footer remote fetch
is attempted only when the homepage is present and non-empty. -/
def lint_legal (env : Env) (gh_md : Repository) : LintM Legal :=
  match gh_md.homepage with
  | some url =>
    if !url.isEmpty then
      bindL (call (Call.remoteMatches url Pat.trademarkFooter)
                  (env.remoteMatches url Pat.trademarkFooter)) fun b =>
      retL { trademark_footer := b }
    else retL { trademark_footer := false }
  | none => retL { trademark_footer := false }

/-- Model of tokio try_join over four tasks (primary.rs lines 76-81):
evaluated sequentially with first-error propagation.  This agrees with the
concurrent try_join semantics whenever at most one task fails, which is the
regime addressed by the failure-propagation claims of the spec. -/
def tryJoin4 {α β γ δ : Type} (ma : LintM α) (mb : LintM β) (mc : LintM γ) (md : LintM δ) :
    LintM (α × β × γ × δ) :=
  bindL ma fun a =>
  bindL mb fun b =>
  bindL mc fun c =>
  bindL md fun d =>
  retL (a, b, c, d)

/-- lint (primary.rs lines 68-90): load local metadata, fetch github
metadata, join the four async sections, then resolve the license section. -/
def lint (env : Env) : LintM Report :=
  bindL (call Call.metadataLoad env.metadataLoad) fun md =>
  bindL (call Call.getGithubMetadata env.getGithubMetadata) fun gh_md =>
  bindL (tryJoin4 (lint_documentation env gh_md) (lint_best_practices env)
                  (lint_security env) (lint_legal env gh_md)) fun r =>
  bindL (lint_license env md gh_md) fun lic =>
  retL { documentation := r.1
         license := lic
         best_practices := r.2.1
         security := r.2.2.1
         legal := r.2.2.2 }

/-! ## Evaluation lemmas -/

theorem retL_apply {α : Type} (a : α) (t : List Call) : retL a t = (Except.ok a, t) := rfl

theorem call_apply {α : Type} (c : Call) (r : Except LintErr α) (t : List Call) :
    call c r t = (r, t ++ [c]) := rfl

/-- Invert a successful bindL into its two successful stages. -/
theorem bindL_ok {α β : Type} {m : LintM α} {f : α → LintM β} {t u : List Call} {b : β}
    (h : bindL m f t = (Except.ok b, u)) :
    ∃ a s, m t = (Except.ok a, s) ∧ f a s = (Except.ok b, u) := by
  unfold bindL at h
  rcases hm : m t with ⟨r, s⟩
  rw [hm] at h
  cases r with
  | ok a => exact ⟨a, s, rfl, h⟩
  | error e => simp at h

/-- A computation is clean when its outcome is independent of the initial
trace and it only appends its own calls. Every computation built from the
combinators above is clean. -/
def Clean {α : Type} (m : LintM α) : Prop :=
  ∀ t, m t = ((m []).1, t ++ (m []).2)

theorem clean_retL {α : Type} (a : α) : Clean (retL a) := by
  intro t
  simp [retL]

theorem clean_call {α : Type} (c : Call) (r : Except LintErr α) : Clean (call c r) := by
  intro t
  simp [call]

theorem clean_bindL {α β : Type} {m : LintM α} {f : α → LintM β}
    (hm : Clean m) (hf : ∀ a, Clean (f a)) : Clean (bindL m f) := by
  intro t
  unfold bindL
  rw [hm t, hm []]
  cases h1 : (m []).1 with
  | ok a =>
    simp only [List.nil_append]
    rw [hf a (t ++ (m []).2), hf a ((m []).2)]
    simp [List.append_assoc]
  | error e => simp

theorem clean_orL {x y : LintM Bool} (hx : Clean x) (hy : Clean y) : Clean (orL x y) := by
  intro t
  unfold orL
  rw [hx t, hx []]
  cases h1 : (x []).1 with
  | ok b =>
    cases b with
    | true => simp
    | false =>
      simp only [List.nil_append]
      rw [hy (t ++ (x []).2), hy ((x []).2)]
      simp [List.append_assoc]
  | error e => simp

theorem clean_adopters (env : Env) : Clean (adopters env) :=
  clean_orL (clean_call _ _) (clean_call _ _)

theorem clean_code_of_conduct (env : Env) : Clean (code_of_conduct env) :=
  clean_orL (clean_orL (clean_call _ _) (clean_call _ _)) (clean_call _ _)

theorem clean_contributing (env : Env) : Clean (contributing env) :=
  clean_orL (clean_orL (clean_call _ _) (clean_call _ _)) (clean_call _ _)

theorem clean_changelog (env : Env) : Clean (changelog env) :=
  clean_orL (clean_orL (clean_call _ _) (clean_call _ _)) (clean_call _ _)

theorem clean_governance (env : Env) : Clean (governance env) :=
  clean_orL (clean_call _ _) (clean_call _ _)

theorem clean_maintainers (env : Env) : Clean (maintainers env) :=
  clean_call _ _

theorem clean_readme (env : Env) : Clean (readme env) :=
  clean_call _ _

theorem clean_roadmap (env : Env) : Clean (roadmap env) :=
  clean_orL (clean_call _ _) (clean_call _ _)

theorem clean_lint_documentation (env : Env) (gh_md : Repository) :
    Clean (lint_documentation env gh_md) :=
  clean_bindL (clean_adopters env) fun _ =>
  clean_bindL (clean_code_of_conduct env) fun _ =>
  clean_bindL (clean_contributing env) fun _ =>
  clean_bindL (clean_changelog env) fun _ =>
  clean_bindL (clean_governance env) fun _ =>
  clean_bindL (clean_maintainers env) fun _ =>
  clean_bindL (clean_readme env) fun _ =>
  clean_bindL (clean_roadmap env) fun _ =>
  clean_retL _

theorem clean_dco (env : Env) : Clean (dco env) :=
  clean_orL (clean_call _ _) (clean_call _ _)

theorem clean_lint_best_practices (env : Env) : Clean (lint_best_practices env) :=
  clean_bindL (clean_call _ _) fun _ =>
  clean_bindL (clean_call _ _) fun _ =>
  clean_bindL (clean_dco env) fun _ =>
  clean_bindL (clean_call _ _) fun _ =>
  clean_bindL (clean_call _ _) fun _ =>
  clean_retL _

theorem clean_security_policy (env : Env) : Clean (security_policy env) :=
  clean_orL (clean_orL (clean_call _ _) (clean_call _ _)) (clean_call _ _)

theorem clean_lint_security (env : Env) : Clean (lint_security env) :=
  clean_bindL (clean_security_policy env) fun _ => clean_retL _

theorem clean_lint_legal (env : Env) (gh_md : Repository) : Clean (lint_legal env gh_md) := by
  unfold lint_legal
  cases gh_md.homepage with
  | none => exact clean_retL _
  | some url =>
    by_cases h : url.isEmpty
    · simp [h]
      exact clean_retL _
    · simp [h]
      exact clean_bindL (clean_call _ _) fun _ => clean_retL _

/-! ## Concrete environments used to witness the theorems -/

/-- Every evidence source reports false / absent; metadata present but empty. -/
def envAllFalse : Env where
  pathExists := fun _ _ => Except.ok false
  contentMatches := fun _ _ _ => Except.ok false
  contentFind := fun _ _ _ => Except.ok none
  hasDefaultCommunityHealthFile := fun _ => Except.ok false
  lastReleaseBodyMatches := fun _ => Except.ok false
  commitsHaveDcoSignature := Except.ok false
  lastPrHasDcoCheck := Except.ok false
  hasRecentRelease := Except.ok false
  remoteMatches := fun _ _ => Except.ok false
  licenseDetect := fun _ _ => Except.ok none
  isApproved := fun _ => false
  metadataLoad := Except.ok none
  getGithubMetadata := Except.ok { homepage := none, license := none }

/-- First source of every chain reports true; every later source would
error, so any evaluation of a later source would be visible. -/
def envFirstTrue : Env where
  pathExists := fun _ _ => Except.ok true
  contentMatches := fun _ _ _ => Except.error (LintErr.ioErr "unreadable")
  contentFind := fun _ _ _ => Except.error (LintErr.ioErr "unreadable")
  hasDefaultCommunityHealthFile := fun _ => Except.error (LintErr.fetchErr "down")
  lastReleaseBodyMatches := fun _ => Except.error (LintErr.fetchErr "down")
  commitsHaveDcoSignature := Except.ok true
  lastPrHasDcoCheck := Except.error (LintErr.fetchErr "down")
  hasRecentRelease := Except.ok true
  remoteMatches := fun _ _ => Except.ok true
  licenseDetect := fun _ _ => Except.ok (some "Apache-2.0")
  isApproved := fun _ => true
  metadataLoad := Except.ok none
  getGithubMetadata := Except.ok { homepage := none, license := none }

/-- First source false, second source true, later sources would error. -/
def envSecondTrue : Env where
  pathExists := fun _ _ => Except.ok false
  contentMatches := fun _ _ _ => Except.ok true
  contentFind := fun _ _ _ => Except.ok (some "https://fossa.example")
  hasDefaultCommunityHealthFile := fun _ => Except.error (LintErr.fetchErr "down")
  lastReleaseBodyMatches := fun _ => Except.error (LintErr.fetchErr "down")
  commitsHaveDcoSignature := Except.ok false
  lastPrHasDcoCheck := Except.ok true
  hasRecentRelease := Except.ok true
  remoteMatches := fun _ _ => Except.ok true
  licenseDetect := fun _ _ => Except.ok none
  isApproved := fun _ => true
  metadataLoad := Except.ok none
  getGithubMetadata := Except.ok { homepage := some "https://example.org", license := none }

/-- First two sources false, third source true. -/
def envThirdTrue : Env where
  pathExists := fun _ _ => Except.ok false
  contentMatches := fun _ _ _ => Except.ok false
  contentFind := fun _ _ _ => Except.ok none
  hasDefaultCommunityHealthFile := fun _ => Except.ok true
  lastReleaseBodyMatches := fun _ => Except.ok true
  commitsHaveDcoSignature := Except.ok false
  lastPrHasDcoCheck := Except.ok true
  hasRecentRelease := Except.ok true
  remoteMatches := fun _ _ => Except.ok false
  licenseDetect := fun _ _ => Except.ok none
  isApproved := fun _ => false
  metadataLoad := Except.ok none
  getGithubMetadata := Except.ok { homepage := none, license := none }

/-- Local sources fail with errors; used to observe error propagation and
the best-effort degradation of the local git inspection. -/
def envLocalErr : Env where
  pathExists := fun _ _ => Except.error (LintErr.ioErr "unreadable dir")
  contentMatches := fun _ _ _ => Except.error (LintErr.ioErr "unreadable file")
  contentFind := fun _ _ _ => Except.error (LintErr.ioErr "unreadable file")
  hasDefaultCommunityHealthFile := fun _ => Except.ok true
  lastReleaseBodyMatches := fun _ => Except.ok true
  commitsHaveDcoSignature := Except.error (LintErr.ioErr "git failure")
  lastPrHasDcoCheck := Except.ok true
  hasRecentRelease := Except.ok true
  remoteMatches := fun _ _ => Except.ok true
  licenseDetect := fun _ _ => Except.ok none
  isApproved := fun _ => false
  metadataLoad := Except.ok none
  getGithubMetadata := Except.ok { homepage := none, license := none }

/-! ## Claim theorems -/

/-- C1: for every checklist item resolved by an OR-fallback chain, if source
k yields true, the item resolves to true and the sources after k are never
evaluated (the final trace contains exactly the calls up to k), regardless
of what the later sources would report (the later oracle entries are
unconstrained).  Shown for the adopters, code_of_conduct and changelog
chains at every position k. -/
theorem C1_first_true_short_circuits (env : Env) (t : List Call) :
    (env.pathExists PatternSet.adoptersFile false = Except.ok true →
      adopters env t = (Except.ok true,
        t ++ [Call.pathExists PatternSet.adoptersFile false])) ∧
    (env.pathExists PatternSet.adoptersFile false = Except.ok false →
     env.contentMatches PatternSet.readmeFile true Pat.adoptersHeader = Except.ok true →
      adopters env t = (Except.ok true,
        t ++ [Call.pathExists PatternSet.adoptersFile false,
              Call.contentMatches PatternSet.readmeFile true Pat.adoptersHeader])) ∧
    (env.pathExists PatternSet.codeOfConductFile false = Except.ok true →
      code_of_conduct env t = (Except.ok true,
        t ++ [Call.pathExists PatternSet.codeOfConductFile false])) ∧
    (env.pathExists PatternSet.codeOfConductFile false = Except.ok false →
     env.contentMatches PatternSet.readmeFile true Pat.codeOfConductHeader = Except.ok true →
      code_of_conduct env t = (Except.ok true,
        t ++ [Call.pathExists PatternSet.codeOfConductFile false,
              Call.contentMatches PatternSet.readmeFile true Pat.codeOfConductHeader])) ∧
    (env.pathExists PatternSet.codeOfConductFile false = Except.ok false →
     env.contentMatches PatternSet.readmeFile true Pat.codeOfConductHeader = Except.ok false →
     env.hasDefaultCommunityHealthFile "CODE_OF_CONDUCT.md" = Except.ok true →
      code_of_conduct env t = (Except.ok true,
        t ++ [Call.pathExists PatternSet.codeOfConductFile false,
              Call.contentMatches PatternSet.readmeFile true Pat.codeOfConductHeader,
              Call.hasDefaultCommunityHealthFile "CODE_OF_CONDUCT.md"])) ∧
    (env.pathExists PatternSet.changelogFile false = Except.ok true →
      changelog env t = (Except.ok true,
        t ++ [Call.pathExists PatternSet.changelogFile false])) ∧
    (env.pathExists PatternSet.changelogFile false = Except.ok false →
     env.contentMatches PatternSet.readmeFile true Pat.changelogHeader = Except.ok true →
      changelog env t = (Except.ok true,
        t ++ [Call.pathExists PatternSet.changelogFile false,
              Call.contentMatches PatternSet.readmeFile true Pat.changelogHeader])) ∧
    (env.pathExists PatternSet.changelogFile false = Except.ok false →
     env.contentMatches PatternSet.readmeFile true Pat.changelogHeader = Except.ok false →
     env.lastReleaseBodyMatches Pat.changelogRelease = Except.ok true →
      changelog env t = (Except.ok true,
        t ++ [Call.pathExists PatternSet.changelogFile false,
              Call.contentMatches PatternSet.readmeFile true Pat.changelogHeader,
              Call.lastReleaseBodyMatches Pat.changelogRelease])) := by
  refine ⟨?_, ?_, ?_, ?_, ?_, ?_, ?_, ?_⟩
  · intro h1
    simp [adopters, orL, pathExistsC, contentMatchesC, call, h1]
  · intro h1 h2
    simp [adopters, orL, pathExistsC, contentMatchesC, call, h1, h2]
  · intro h1
    simp [code_of_conduct, orL, pathExistsC, contentMatchesC, communityHealthC, call, h1]
  · intro h1 h2
    simp [code_of_conduct, orL, pathExistsC, contentMatchesC, communityHealthC, call, h1, h2]
  · intro h1 h2 h3
    simp [code_of_conduct, orL, pathExistsC, contentMatchesC, communityHealthC, call, h1, h2, h3]
  · intro h1
    simp [changelog, orL, pathExistsC, contentMatchesC, lastReleaseBodyMatchesC, call, h1]
  · intro h1 h2
    simp [changelog, orL, pathExistsC, contentMatchesC, lastReleaseBodyMatchesC, call, h1, h2]
  · intro h1 h2 h3
    simp [changelog, orL, pathExistsC, contentMatchesC, lastReleaseBodyMatchesC, call, h1, h2, h3]

/-- Witness for C1: each position of each chain exercised on a concrete
environment in which every later source would error. -/
theorem C1_witness :
    (adopters envFirstTrue [] = (Except.ok true,
      [Call.pathExists PatternSet.adoptersFile false])) ∧
    (adopters envSecondTrue [] = (Except.ok true,
      [Call.pathExists PatternSet.adoptersFile false,
       Call.contentMatches PatternSet.readmeFile true Pat.adoptersHeader])) ∧
    (code_of_conduct envFirstTrue [] = (Except.ok true,
      [Call.pathExists PatternSet.codeOfConductFile false])) ∧
    (code_of_conduct envSecondTrue [] = (Except.ok true,
      [Call.pathExists PatternSet.codeOfConductFile false,
       Call.contentMatches PatternSet.readmeFile true Pat.codeOfConductHeader])) ∧
    (code_of_conduct envThirdTrue [] = (Except.ok true,
      [Call.pathExists PatternSet.codeOfConductFile false,
       Call.contentMatches PatternSet.readmeFile true Pat.codeOfConductHeader,
       Call.hasDefaultCommunityHealthFile "CODE_OF_CONDUCT.md"])) ∧
    (changelog envFirstTrue [] = (Except.ok true,
      [Call.pathExists PatternSet.changelogFile false])) ∧
    (changelog envSecondTrue [] = (Except.ok true,
      [Call.pathExists PatternSet.changelogFile false,
       Call.contentMatches PatternSet.readmeFile true Pat.changelogHeader])) ∧
    (changelog envThirdTrue [] = (Except.ok true,
      [Call.pathExists PatternSet.changelogFile false,
       Call.contentMatches PatternSet.readmeFile true Pat.changelogHeader,
       Call.lastReleaseBodyMatches Pat.changelogRelease])) :=
  ⟨(C1_first_true_short_circuits envFirstTrue []).1 rfl,
   (C1_first_true_short_circuits envSecondTrue []).2.1 rfl rfl,
   (C1_first_true_short_circuits envFirstTrue []).2.2.1 rfl,
   (C1_first_true_short_circuits envSecondTrue []).2.2.2.1 rfl rfl,
   (C1_first_true_short_circuits envThirdTrue []).2.2.2.2.1 rfl rfl rfl,
   (C1_first_true_short_circuits envFirstTrue []).2.2.2.2.2.1 rfl,
   (C1_first_true_short_circuits envSecondTrue []).2.2.2.2.2.2.1 rfl rfl,
   (C1_first_true_short_circuits envThirdTrue []).2.2.2.2.2.2.2 rfl rfl rfl⟩

/-- Environment whose path checks report false but whose content checks
fail with an IO error. -/
def envContentErr : Env where
  pathExists := fun _ _ => Except.ok false
  contentMatches := fun _ _ _ => Except.error (LintErr.ioErr "unreadable file")
  contentFind := fun _ _ _ => Except.error (LintErr.ioErr "unreadable file")
  hasDefaultCommunityHealthFile := fun _ => Except.ok true
  lastReleaseBodyMatches := fun _ => Except.ok true
  commitsHaveDcoSignature := Except.ok false
  lastPrHasDcoCheck := Except.ok false
  hasRecentRelease := Except.ok true
  remoteMatches := fun _ _ => Except.ok true
  licenseDetect := fun _ _ => Except.ok none
  isApproved := fun _ => false
  metadataLoad := Except.ok none
  getGithubMetadata := Except.ok { homepage := none, license := none }

/-- C2: a non-best-effort source failing with an error aborts the whole
item resolution with that error and the remaining sources of the chain are never
evaluated (final trace stops at the failing source); the sole exception is
the best-effort local git DCO inspection, whose error is degraded to false
by unwrap_or so the chain continues to the remote pull-request check. -/
theorem C2_error_propagation_best_effort (env : Env) (t : List Call) (e : LintErr) :
    (env.pathExists PatternSet.codeOfConductFile false = Except.error e →
      code_of_conduct env t = (Except.error e,
        t ++ [Call.pathExists PatternSet.codeOfConductFile false])) ∧
    (env.pathExists PatternSet.codeOfConductFile false = Except.ok false →
     env.contentMatches PatternSet.readmeFile true Pat.codeOfConductHeader = Except.error e →
      code_of_conduct env t = (Except.error e,
        t ++ [Call.pathExists PatternSet.codeOfConductFile false,
              Call.contentMatches PatternSet.readmeFile true Pat.codeOfConductHeader])) ∧
    (env.commitsHaveDcoSignature = Except.error e →
      dco env t = (env.lastPrHasDcoCheck,
        t ++ [Call.commitsHaveDcoSignature, Call.lastPrHasDcoCheck])) := by
  refine ⟨?_, ?_, ?_⟩
  · intro h1
    simp [code_of_conduct, orL, pathExistsC, contentMatchesC, communityHealthC, call, h1]
  · intro h1 h2
    simp [code_of_conduct, orL, pathExistsC, contentMatchesC, communityHealthC, call, h1, h2]
  · intro h1
    simp [dco, orL, call, unwrapOrFalse, h1]

/-- Witness for C2 on concrete failing environments. -/
theorem C2_witness :
    (code_of_conduct envLocalErr [] = (Except.error (LintErr.ioErr "unreadable dir"),
      [Call.pathExists PatternSet.codeOfConductFile false])) ∧
    (code_of_conduct envContentErr [] = (Except.error (LintErr.ioErr "unreadable file"),
      [Call.pathExists PatternSet.codeOfConductFile false,
       Call.contentMatches PatternSet.readmeFile true Pat.codeOfConductHeader])) ∧
    (dco envLocalErr [] = (Except.ok true,
      [Call.commitsHaveDcoSignature, Call.lastPrHasDcoCheck])) :=
  ⟨(C2_error_propagation_best_effort envLocalErr [] (LintErr.ioErr "unreadable dir")).1 rfl,
   (C2_error_propagation_best_effort envContentErr [] (LintErr.ioErr "unreadable file")).2.1
     rfl rfl,
   (C2_error_propagation_best_effort envLocalErr [] (LintErr.ioErr "git failure")).2.2 rfl⟩

/-- C3: for every checklist item with an OR-fallback chain, if every source
in the chain reports false (and none errors), the item resolves to false.
Shown for all chain-resolved boolean items of the report. -/
theorem C3_all_false_resolves_false (env : Env) (t : List Call) :
    (env.pathExists PatternSet.adoptersFile false = Except.ok false →
     env.contentMatches PatternSet.readmeFile true Pat.adoptersHeader = Except.ok false →
      adopters env t = (Except.ok false,
        t ++ [Call.pathExists PatternSet.adoptersFile false,
              Call.contentMatches PatternSet.readmeFile true Pat.adoptersHeader])) ∧
    (env.pathExists PatternSet.codeOfConductFile false = Except.ok false →
     env.contentMatches PatternSet.readmeFile true Pat.codeOfConductHeader = Except.ok false →
     env.hasDefaultCommunityHealthFile "CODE_OF_CONDUCT.md" = Except.ok false →
      code_of_conduct env t = (Except.ok false,
        t ++ [Call.pathExists PatternSet.codeOfConductFile false,
              Call.contentMatches PatternSet.readmeFile true Pat.codeOfConductHeader,
              Call.hasDefaultCommunityHealthFile "CODE_OF_CONDUCT.md"])) ∧
    (env.pathExists PatternSet.contributingFile false = Except.ok false →
     env.contentMatches PatternSet.readmeFile true Pat.contributingHeader = Except.ok false →
     env.hasDefaultCommunityHealthFile "CONTRIBUTING.md" = Except.ok false →
      contributing env t = (Except.ok false,
        t ++ [Call.pathExists PatternSet.contributingFile false,
              Call.contentMatches PatternSet.readmeFile true Pat.contributingHeader,
              Call.hasDefaultCommunityHealthFile "CONTRIBUTING.md"])) ∧
    (env.pathExists PatternSet.changelogFile false = Except.ok false →
     env.contentMatches PatternSet.readmeFile true Pat.changelogHeader = Except.ok false →
     env.lastReleaseBodyMatches Pat.changelogRelease = Except.ok false →
      changelog env t = (Except.ok false,
        t ++ [Call.pathExists PatternSet.changelogFile false,
              Call.contentMatches PatternSet.readmeFile true Pat.changelogHeader,
              Call.lastReleaseBodyMatches Pat.changelogRelease])) ∧
    (env.pathExists PatternSet.governanceFile false = Except.ok false →
     env.contentMatches PatternSet.readmeFile true Pat.governanceHeader = Except.ok false →
      governance env t = (Except.ok false,
        t ++ [Call.pathExists PatternSet.governanceFile false,
              Call.contentMatches PatternSet.readmeFile true Pat.governanceHeader])) ∧
    (env.pathExists PatternSet.maintainersFile false = Except.ok false →
      maintainers env t = (Except.ok false,
        t ++ [Call.pathExists PatternSet.maintainersFile false])) ∧
    (env.pathExists PatternSet.readmeFile true = Except.ok false →
      readme env t = (Except.ok false,
        t ++ [Call.pathExists PatternSet.readmeFile true])) ∧
    (env.pathExists PatternSet.roadmapFile false = Except.ok false →
     env.contentMatches PatternSet.readmeFile true Pat.roadmapHeader = Except.ok false →
      roadmap env t = (Except.ok false,
        t ++ [Call.pathExists PatternSet.roadmapFile false,
              Call.contentMatches PatternSet.readmeFile true Pat.roadmapHeader])) ∧
    (env.pathExists PatternSet.securityPolicyFile false = Except.ok false →
     env.contentMatches PatternSet.readmeFile true Pat.securityPolicyHeader = Except.ok false →
     env.hasDefaultCommunityHealthFile "SECURITY.md" = Except.ok false →
      security_policy env t = (Except.ok false,
        t ++ [Call.pathExists PatternSet.securityPolicyFile false,
              Call.contentMatches PatternSet.readmeFile true Pat.securityPolicyHeader,
              Call.hasDefaultCommunityHealthFile "SECURITY.md"])) ∧
    (env.commitsHaveDcoSignature = Except.ok false →
     env.lastPrHasDcoCheck = Except.ok false →
      dco env t = (Except.ok false,
        t ++ [Call.commitsHaveDcoSignature, Call.lastPrHasDcoCheck])) := by
  refine ⟨?_, ?_, ?_, ?_, ?_, ?_, ?_, ?_, ?_, ?_⟩
  · intro h1 h2
    simp [adopters, orL, pathExistsC, contentMatchesC, call, h1, h2]
  · intro h1 h2 h3
    simp [code_of_conduct, orL, pathExistsC, contentMatchesC, communityHealthC, call, h1, h2, h3]
  · intro h1 h2 h3
    simp [contributing, orL, pathExistsC, contentMatchesC, communityHealthC, call, h1, h2, h3]
  · intro h1 h2 h3
    simp [changelog, orL, pathExistsC, contentMatchesC, lastReleaseBodyMatchesC, call, h1, h2, h3]
  · intro h1 h2
    simp [governance, orL, pathExistsC, contentMatchesC, call, h1, h2]
  · intro h1
    simp [maintainers, pathExistsC, call, h1]
  · intro h1
    simp [readme, pathExistsC, call, h1]
  · intro h1 h2
    simp [roadmap, orL, pathExistsC, contentMatchesC, call, h1, h2]
  · intro h1 h2 h3
    simp [security_policy, orL, pathExistsC, contentMatchesC, communityHealthC, call, h1, h2, h3]
  · intro h1 h2
    simp [dco, orL, call, unwrapOrFalse, h1, h2]

/-- Witness for C3: the all-false environment resolves every chain item to
false. -/
theorem C3_witness :
    (adopters envAllFalse [] = (Except.ok false,
      [Call.pathExists PatternSet.adoptersFile false,
       Call.contentMatches PatternSet.readmeFile true Pat.adoptersHeader])) ∧
    (code_of_conduct envAllFalse [] = (Except.ok false,
      [Call.pathExists PatternSet.codeOfConductFile false,
       Call.contentMatches PatternSet.readmeFile true Pat.codeOfConductHeader,
       Call.hasDefaultCommunityHealthFile "CODE_OF_CONDUCT.md"])) ∧
    (contributing envAllFalse [] = (Except.ok false,
      [Call.pathExists PatternSet.contributingFile false,
       Call.contentMatches PatternSet.readmeFile true Pat.contributingHeader,
       Call.hasDefaultCommunityHealthFile "CONTRIBUTING.md"])) ∧
    (changelog envAllFalse [] = (Except.ok false,
      [Call.pathExists PatternSet.changelogFile false,
       Call.contentMatches PatternSet.readmeFile true Pat.changelogHeader,
       Call.lastReleaseBodyMatches Pat.changelogRelease])) ∧
    (governance envAllFalse [] = (Except.ok false,
      [Call.pathExists PatternSet.governanceFile false,
       Call.contentMatches PatternSet.readmeFile true Pat.governanceHeader])) ∧
    (maintainers envAllFalse [] = (Except.ok false,
      [Call.pathExists PatternSet.maintainersFile false])) ∧
    (readme envAllFalse [] = (Except.ok false,
      [Call.pathExists PatternSet.readmeFile true])) ∧
    (roadmap envAllFalse [] = (Except.ok false,
      [Call.pathExists PatternSet.roadmapFile false,
       Call.contentMatches PatternSet.readmeFile true Pat.roadmapHeader])) ∧
    (security_policy envAllFalse [] = (Except.ok false,
      [Call.pathExists PatternSet.securityPolicyFile false,
       Call.contentMatches PatternSet.readmeFile true Pat.securityPolicyHeader,
       Call.hasDefaultCommunityHealthFile "SECURITY.md"])) ∧
    (dco envAllFalse [] = (Except.ok false,
      [Call.commitsHaveDcoSignature, Call.lastPrHasDcoCheck])) :=
  ⟨(C3_all_false_resolves_false envAllFalse []).1 rfl rfl,
   (C3_all_false_resolves_false envAllFalse []).2.1 rfl rfl rfl,
   (C3_all_false_resolves_false envAllFalse []).2.2.1 rfl rfl rfl,
   (C3_all_false_resolves_false envAllFalse []).2.2.2.1 rfl rfl rfl,
   (C3_all_false_resolves_false envAllFalse []).2.2.2.2.1 rfl rfl,
   (C3_all_false_resolves_false envAllFalse []).2.2.2.2.2.1 rfl,
   (C3_all_false_resolves_false envAllFalse []).2.2.2.2.2.2.1 rfl,
   (C3_all_false_resolves_false envAllFalse []).2.2.2.2.2.2.2.1 rfl rfl,
   (C3_all_false_resolves_false envAllFalse []).2.2.2.2.2.2.2.2.1 rfl rfl rfl,
   (C3_all_false_resolves_false envAllFalse []).2.2.2.2.2.2.2.2.2 rfl rfl⟩

/-- Github metadata with no homepage and no declared license. -/
def ghNone : Repository := { homepage := none, license := none }

/-- Github metadata whose declared license is the NOASSERTION sentinel. -/
def ghNoassert : Repository := { homepage := none, license := some { spdx_id := "NOASSERTION" } }

/-- Project-local metadata carrying a license-scanning URL override. -/
def mdOverride : Metadata :=
  { license_scanning := some { url := some "https://fossa.example/report" } }

/-- Invert a successful lint_license run into the detection outcome, the
derived fields, and which scanning branch was taken. -/
theorem lint_license_ok_inv {env : Env} {md : Option Metadata} {gh_md : Repository}
    {t t1 : List Call} {lic : License}
    (h : lint_license env md gh_md t = (Except.ok lic, t1)) :
    ∃ d, env.licenseDetect PatternSet.licenseFile true = Except.ok d ∧
      lic.spdx_id = resolved_spdx_id d gh_md ∧
      lic.approved = resolved_approved env (resolved_spdx_id d gh_md) ∧
      ((∃ url, scanning_override md = some url ∧ lic.scanning = some url ∧
          t1 = t ++ [Call.licenseDetect PatternSet.licenseFile true]) ∨
       (scanning_override md = none ∧
          env.contentFind PatternSet.readmeFile true [Pat.fossaUrl, Pat.snykUrl] =
            Except.ok lic.scanning ∧
          t1 = t ++ [Call.licenseDetect PatternSet.licenseFile true,
                     Call.contentFind PatternSet.readmeFile true [Pat.fossaUrl, Pat.snykUrl]])) := by
  unfold lint_license at h
  obtain ⟨d, s, hd, hrest⟩ := bindL_ok h
  have hdet : env.licenseDetect PatternSet.licenseFile true = Except.ok d := by
    have h1 := congrArg Prod.fst hd
    simpa [licenseDetectC, call] using h1
  have hs : s = t ++ [Call.licenseDetect PatternSet.licenseFile true] := by
    have h2 := congrArg Prod.snd hd
    simpa [licenseDetectC, call] using h2.symm
  refine ⟨d, hdet, ?_⟩
  cases hso : scanning_override md with
  | some url =>
    rw [hso] at hrest
    simp only [retL, Prod.mk.injEq, Except.ok.injEq] at hrest
    obtain ⟨hlic, hts⟩ := hrest
    subst hlic
    exact ⟨rfl, rfl, Or.inl ⟨url, rfl, rfl, by rw [← hts, hs]⟩⟩
  | none =>
    rw [hso] at hrest
    obtain ⟨found, s2, hf, hr⟩ := bindL_ok hrest
    have hfound : env.contentFind PatternSet.readmeFile true [Pat.fossaUrl, Pat.snykUrl] =
        Except.ok found := by
      have h1 := congrArg Prod.fst hf
      simpa [contentFindC, call] using h1
    have hs2 : s2 = s ++ [Call.contentFind PatternSet.readmeFile true
        [Pat.fossaUrl, Pat.snykUrl]] := by
      have h2 := congrArg Prod.snd hf
      simpa [contentFindC, call] using h2.symm
    simp only [retL, Prod.mk.injEq, Except.ok.injEq] at hr
    obtain ⟨hlic, hts⟩ := hr
    subst hlic
    refine ⟨rfl, rfl, Or.inr ⟨rfl, hfound, ?_⟩⟩
    rw [← hts, hs2, hs]
    simp

/-- C4: in every successful license-section result, approved is absent
exactly when spdx_id is absent, and otherwise equals the approved-list
membership test applied to the resolved identifier. -/
theorem C4_approved_iff_spdx (env : Env) (md : Option Metadata) (gh_md : Repository)
    (t t1 : List Call) (lic : License)
    (h : lint_license env md gh_md t = (Except.ok lic, t1)) :
    (lic.approved = none ↔ lic.spdx_id = none) ∧
    (∀ id, lic.spdx_id = some id → lic.approved = some (env.isApproved id)) := by
  obtain ⟨d, hdet, hspdx, happ, hsc⟩ := lint_license_ok_inv h
  constructor
  · rw [happ, hspdx]
    cases resolved_spdx_id d gh_md <;> simp [resolved_approved]
  · intro id hid
    rw [hspdx] at hid
    rw [happ, hid]
    rfl

/-- Witness for C4 on the all-false environment: no identifier resolved,
approved absent. -/
theorem C4_witness :
    (License.approved ⟨none, none, none⟩ = none ↔ License.spdx_id ⟨none, none, none⟩ = none) ∧
    (∀ id, License.spdx_id ⟨none, none, none⟩ = some id →
       License.approved ⟨none, none, none⟩ = some (envAllFalse.isApproved id)) :=
  C4_approved_iff_spdx envAllFalse none ghNone []
    [Call.licenseDetect PatternSet.licenseFile true,
     Call.contentFind PatternSet.readmeFile true [Pat.fossaUrl, Pat.snykUrl]]
    ⟨none, none, none⟩ (by rfl)

/-- C5: spdx_id resolves to the locally detected identifier when detection
succeeds; otherwise to the declared license identifier unless it is the
NOASSERTION sentinel; when the declared identifier is the sentinel (or there
is none) and detection yields nothing, spdx_id and approved are both
absent. -/
theorem C5_spdx_resolution (env : Env) (md : Option Metadata) (gh_md : Repository)
    (t t1 : List Call) (lic : License)
    (h : lint_license env md gh_md t = (Except.ok lic, t1)) :
    (∀ id, env.licenseDetect PatternSet.licenseFile true = Except.ok (some id) →
       lic.spdx_id = some id) ∧
    (env.licenseDetect PatternSet.licenseFile true = Except.ok none →
      (∀ l, gh_md.license = some l → l.spdx_id ≠ "NOASSERTION" →
         lic.spdx_id = some l.spdx_id) ∧
      (∀ l, gh_md.license = some l → l.spdx_id = "NOASSERTION" →
         lic.spdx_id = none ∧ lic.approved = none) ∧
      (gh_md.license = none → lic.spdx_id = none ∧ lic.approved = none)) := by
  obtain ⟨d, hdet, hspdx, happ, hsc⟩ := lint_license_ok_inv h
  constructor
  · intro id hid
    rw [hdet] at hid
    obtain rfl : d = some id := by simpa using hid
    rw [hspdx]
    rfl
  · intro h0
    rw [hdet] at h0
    obtain rfl : d = none := by simpa using h0
    refine ⟨?_, ?_, ?_⟩
    · intro l hl hne
      rw [hspdx]
      simp [resolved_spdx_id, hl, hne]
    · intro l hl heq
      rw [hspdx, happ]
      simp [resolved_spdx_id, resolved_approved, hl, heq]
    · intro hl
      rw [hspdx, happ]
      simp [resolved_spdx_id, resolved_approved, hl]

/-- Witness for C5: detection success uses the detected id; the NOASSERTION
sentinel with no local detection leaves spdx_id and approved absent. -/
theorem C5_witness :
    (License.spdx_id ⟨some true, some "https://fossa.example/report", some "Apache-2.0"⟩ =
       some "Apache-2.0") ∧
    (License.spdx_id ⟨none, none, none⟩ = none ∧
     License.approved ⟨none, none, none⟩ = none) :=
  ⟨(C5_spdx_resolution envFirstTrue (some mdOverride) ghNone []
      [Call.licenseDetect PatternSet.licenseFile true]
      ⟨some true, some "https://fossa.example/report", some "Apache-2.0"⟩ (by rfl)).1
      "Apache-2.0" rfl,
   ((C5_spdx_resolution envAllFalse none ghNoassert []
      [Call.licenseDetect PatternSet.licenseFile true,
       Call.contentFind PatternSet.readmeFile true [Pat.fossaUrl, Pat.snykUrl]]
      ⟨none, none, none⟩ (by rfl)).2 rfl).2.1 ⟨"NOASSERTION"⟩ rfl rfl⟩

/-- C7: the scanning URL resolves to the project-local override when one is
present, and the README is then never searched (the trace holds only the
detection call); only without an override is the README searched, the field
taking whatever that search yields, absent included. -/
theorem C7_scanning_override_priority (env : Env) (md : Option Metadata) (gh_md : Repository)
    (t t1 : List Call) (lic : License)
    (h : lint_license env md gh_md t = (Except.ok lic, t1)) :
    (∀ url, scanning_override md = some url →
       lic.scanning = some url ∧
       t1 = t ++ [Call.licenseDetect PatternSet.licenseFile true]) ∧
    (scanning_override md = none →
       env.contentFind PatternSet.readmeFile true [Pat.fossaUrl, Pat.snykUrl] =
         Except.ok lic.scanning ∧
       t1 = t ++ [Call.licenseDetect PatternSet.licenseFile true,
                  Call.contentFind PatternSet.readmeFile true [Pat.fossaUrl, Pat.snykUrl]]) := by
  obtain ⟨d, hdet, hspdx, happ, hsc⟩ := lint_license_ok_inv h
  constructor
  · intro url hurl
    rcases hsc with ⟨url2, hso2, hlicsc, ht⟩ | ⟨hso2, _, _⟩
    · rw [hurl] at hso2
      obtain rfl : url2 = url := by simpa using hso2.symm
      exact ⟨hlicsc, ht⟩
    · rw [hurl] at hso2
      exact absurd hso2 (by simp)
  · intro hnone
    rcases hsc with ⟨url2, hso2, _, _⟩ | ⟨_, hfind, ht⟩
    · rw [hnone] at hso2
      exact absurd hso2 (by simp)
    · exact ⟨hfind, ht⟩

/-- Witness for C7: with an override the README search is skipped even
though it would error; without one the README search supplies the value. -/
theorem C7_witness :
    (License.scanning ⟨some true, some "https://fossa.example/report", some "Apache-2.0"⟩ =
       some "https://fossa.example/report" ∧
     [Call.licenseDetect PatternSet.licenseFile true] =
       ([] : List Call) ++ [Call.licenseDetect PatternSet.licenseFile true]) ∧
    (envSecondTrue.contentFind PatternSet.readmeFile true [Pat.fossaUrl, Pat.snykUrl] =
       Except.ok (License.scanning ⟨none, some "https://fossa.example", none⟩) ∧
     [Call.licenseDetect PatternSet.licenseFile true,
      Call.contentFind PatternSet.readmeFile true [Pat.fossaUrl, Pat.snykUrl]] =
       ([] : List Call) ++ [Call.licenseDetect PatternSet.licenseFile true,
                            Call.contentFind PatternSet.readmeFile true
                              [Pat.fossaUrl, Pat.snykUrl]]) :=
  ⟨(C7_scanning_override_priority envFirstTrue (some mdOverride) ghNone []
      [Call.licenseDetect PatternSet.licenseFile true]
      ⟨some true, some "https://fossa.example/report", some "Apache-2.0"⟩ (by rfl)).1
      "https://fossa.example/report" rfl,
   (C7_scanning_override_priority envSecondTrue none ghNone []
      [Call.licenseDetect PatternSet.licenseFile true,
       Call.contentFind PatternSet.readmeFile true [Pat.fossaUrl, Pat.snykUrl]]
      ⟨none, some "https://fossa.example", none⟩ (by rfl)).2 rfl⟩

/-- An error in the first stage propagates through bindL. -/
theorem bindL_fst_error {α β : Type} {m : LintM α} {f : α → LintM β} {t : List Call} {e : LintErr}
    (h : (m t).1 = Except.error e) : (bindL m f t).1 = Except.error e := by
  unfold bindL
  rcases hm : m t with ⟨r, s⟩
  rw [hm] at h
  simp only [] at h
  subst h
  rfl

/-- A successful first stage steps bindL into the continuation. -/
theorem bindL_of_ok {α β : Type} {m : LintM α} {f : α → LintM β} {t s : List Call} {a : α}
    (h : m t = (Except.ok a, s)) : bindL m f t = f a s := by
  unfold bindL
  rw [h]

/-- Github metadata whose homepage is the empty string. -/
def ghEmptyHome : Repository := { homepage := some "", license := none }

/-- The trace left by lint_documentation when every source reports false. -/
def docTraceAllFalse : List Call :=
  [Call.pathExists PatternSet.adoptersFile false,
   Call.contentMatches PatternSet.readmeFile true Pat.adoptersHeader,
   Call.pathExists PatternSet.codeOfConductFile false,
   Call.contentMatches PatternSet.readmeFile true Pat.codeOfConductHeader,
   Call.hasDefaultCommunityHealthFile "CODE_OF_CONDUCT.md",
   Call.pathExists PatternSet.contributingFile false,
   Call.contentMatches PatternSet.readmeFile true Pat.contributingHeader,
   Call.hasDefaultCommunityHealthFile "CONTRIBUTING.md",
   Call.pathExists PatternSet.changelogFile false,
   Call.contentMatches PatternSet.readmeFile true Pat.changelogHeader,
   Call.lastReleaseBodyMatches Pat.changelogRelease,
   Call.pathExists PatternSet.governanceFile false,
   Call.contentMatches PatternSet.readmeFile true Pat.governanceHeader,
   Call.pathExists PatternSet.maintainersFile false,
   Call.pathExists PatternSet.readmeFile true,
   Call.pathExists PatternSet.roadmapFile false,
   Call.contentMatches PatternSet.readmeFile true Pat.roadmapHeader]

/-- C6: with an empty (or absent) homepage, documentation.website is false
and legal.trademark_footer is false with its remote fetch never attempted
(lint_legal leaves the trace untouched); conversely website is true iff the
homepage is a non-empty URL. -/
theorem C6_website_and_trademark (env : Env) (gh_md : Repository) (t : List Call) :
    ((gh_md.homepage = none ∨ gh_md.homepage = some "") →
       website gh_md = false ∧
       lint_legal env gh_md t = (Except.ok { trademark_footer := false }, t)) ∧
    (website gh_md = true ↔ ∃ url, gh_md.homepage = some url ∧ url ≠ "") ∧
    (∀ doc t1, lint_documentation env gh_md t = (Except.ok doc, t1) →
       doc.website = website gh_md) := by
  refine ⟨?_, ?_, ?_⟩
  · rintro (hh | hh)
    · simp [website, lint_legal, hh, retL]
    · have hemp : ("" : String).isEmpty = true := by decide
      simp [website, lint_legal, hh, retL, hemp]
  · cases hh : gh_md.homepage with
    | none => simp [website, hh]
    | some url =>
      simp only [website, hh, Bool.not_eq_true']
      constructor
      · intro h
        refine ⟨url, rfl, fun hc => ?_⟩
        rw [hc] at h
        exact absurd h (by decide)
      · rintro ⟨u, hu, hne⟩
        have hu2 : u = url := by simpa using hu.symm
        subst hu2
        have hni : ¬ u.isEmpty := fun hemp => hne ((String.isEmpty_iff u).mp hemp)
        simpa using hni
  · intro doc t1 h
    unfold lint_documentation at h
    obtain ⟨a1, s1, _, h⟩ := bindL_ok h
    obtain ⟨a2, s2, _, h⟩ := bindL_ok h
    obtain ⟨a3, s3, _, h⟩ := bindL_ok h
    obtain ⟨a4, s4, _, h⟩ := bindL_ok h
    obtain ⟨a5, s5, _, h⟩ := bindL_ok h
    obtain ⟨a6, s6, _, h⟩ := bindL_ok h
    obtain ⟨a7, s7, _, h⟩ := bindL_ok h
    obtain ⟨a8, s8, _, h⟩ := bindL_ok h
    simp only [retL, Prod.mk.injEq, Except.ok.injEq] at h
    rw [← h.1]

/-- Witness for C6: empty homepage gives website false, trademark_footer
false and an untouched trace. -/
theorem C6_witness :
    (website ghEmptyHome = false ∧
     lint_legal envAllFalse ghEmptyHome [] = (Except.ok { trademark_footer := false }, [])) ∧
    (Documentation.website ⟨false, false, false, false, false, false, false, false, false⟩ =
       website ghEmptyHome) :=
  ⟨(C6_website_and_trademark envAllFalse ghEmptyHome []).1 (Or.inr rfl),
   (C6_website_and_trademark envAllFalse ghEmptyHome []).2.2
     ⟨false, false, false, false, false, false, false, false, false⟩ docTraceAllFalse (by rfl)⟩

/-- Like the all-false environment, but the repository homepage is set and
the remote trademark-footer fetch fails, so that of the four concurrent
sections exactly the legal one fails. -/
def envLegalErr : Env where
  pathExists := fun _ _ => Except.ok false
  contentMatches := fun _ _ _ => Except.ok false
  contentFind := fun _ _ _ => Except.ok none
  hasDefaultCommunityHealthFile := fun _ => Except.ok false
  lastReleaseBodyMatches := fun _ => Except.ok false
  commitsHaveDcoSignature := Except.ok false
  lastPrHasDcoCheck := Except.ok false
  hasRecentRelease := Except.ok false
  remoteMatches := fun _ _ => Except.error (LintErr.fetchErr "homepage unreachable")
  licenseDetect := fun _ _ => Except.ok none
  isApproved := fun _ => false
  metadataLoad := Except.ok none
  getGithubMetadata := Except.ok { homepage := some "https://example.org", license := none }

/-- C8: the assembler joins the four section resolvers and fails with the
error of the failing section: whenever the sections before a given one succeed
and that section fails with e, the result of the whole lint run is the error e
and no report is produced.  With exactly one failing section this is the
try_join outcome under any interleaving. -/
theorem C8_assembler_fail_fast (env : Env) (t : List Call) (e : LintErr)
    (md0 : Option Metadata) (gh0 : Repository)
    (h1 : env.metadataLoad = Except.ok md0)
    (h2 : env.getGithubMetadata = Except.ok gh0) :
    ((lint_documentation env gh0 []).1 = Except.error e → (lint env t).1 = Except.error e) ∧
    (∀ d, (lint_documentation env gh0 []).1 = Except.ok d →
       (lint_best_practices env []).1 = Except.error e →
       (lint env t).1 = Except.error e) ∧
    (∀ d b, (lint_documentation env gh0 []).1 = Except.ok d →
       (lint_best_practices env []).1 = Except.ok b →
       (lint_security env []).1 = Except.error e →
       (lint env t).1 = Except.error e) ∧
    (∀ d b s, (lint_documentation env gh0 []).1 = Except.ok d →
       (lint_best_practices env []).1 = Except.ok b →
       (lint_security env []).1 = Except.ok s →
       (lint_legal env gh0 []).1 = Except.error e →
       (lint env t).1 = Except.error e) := by
  have hml : call Call.metadataLoad env.metadataLoad t =
      (Except.ok md0, t ++ [Call.metadataLoad]) := by rw [call_apply, h1]
  have hgm : call Call.getGithubMetadata env.getGithubMetadata (t ++ [Call.metadataLoad]) =
      (Except.ok gh0, t ++ [Call.metadataLoad] ++ [Call.getGithubMetadata]) := by
    rw [call_apply, h2]
  refine ⟨?_, ?_, ?_, ?_⟩
  · intro hdoc
    unfold lint
    rw [bindL_of_ok hml]
    rw [bindL_of_ok hgm]
    apply bindL_fst_error
    unfold tryJoin4
    apply bindL_fst_error
    rw [clean_lint_documentation env gh0 _]
    simpa using hdoc
  · intro d hdoc hbp
    unfold lint
    rw [bindL_of_ok hml]
    rw [bindL_of_ok hgm]
    apply bindL_fst_error
    unfold tryJoin4
    rw [bindL_of_ok (by rw [clean_lint_documentation env gh0 _, hdoc])]
    apply bindL_fst_error
    rw [clean_lint_best_practices env _]
    simpa using hbp
  · intro d b hdoc hbp hsec
    unfold lint
    rw [bindL_of_ok hml]
    rw [bindL_of_ok hgm]
    apply bindL_fst_error
    unfold tryJoin4
    rw [bindL_of_ok (by rw [clean_lint_documentation env gh0 _, hdoc])]
    rw [bindL_of_ok (by rw [clean_lint_best_practices env _, hbp])]
    apply bindL_fst_error
    rw [clean_lint_security env _]
    simpa using hsec
  · intro d b s hdoc hbp hsec hleg
    unfold lint
    rw [bindL_of_ok hml]
    rw [bindL_of_ok hgm]
    apply bindL_fst_error
    unfold tryJoin4
    rw [bindL_of_ok (by rw [clean_lint_documentation env gh0 _, hdoc])]
    rw [bindL_of_ok (by rw [clean_lint_best_practices env _, hbp])]
    rw [bindL_of_ok (by rw [clean_lint_security env _, hsec])]
    apply bindL_fst_error
    rw [clean_lint_legal env gh0 _]
    simpa using hleg

/-- Witness for C8: documentation, best practices and security succeed while
the remote fetch of the legal section fails; lint surfaces the legal error. -/
theorem C8_witness :
    (lint envLegalErr []).1 = Except.error (LintErr.fetchErr "homepage unreachable") :=
  (C8_assembler_fail_fast envLegalErr [] (LintErr.fetchErr "homepage unreachable")
      none { homepage := some "https://example.org", license := none } rfl rfl).2.2.2
    ⟨false, false, false, false, false, false, false, false, true⟩
    ⟨false, false, false, false, false⟩
    ⟨false⟩
    (by rfl) (by rfl) (by rfl) (by rfl)

/-- Minimal JSON value model for the serde-derived Serialize instances of
the report structs: the derives carry no skip attribute, so every field is
emitted, and an absent Option value serializes as null, keeping its key. -/
inductive JsonV where
  | b (v : Bool)
  | s (v : String)
  | null
  | obj (fields : List (String × JsonV))

/-- Serialize an optional bool: None keeps the key with a null value. -/
def optBoolJson : Option Bool → JsonV
  | some v => JsonV.b v
  | none => JsonV.null

/-- Serialize an optional string: None keeps the key with a null value. -/
def optStrJson : Option String → JsonV
  | some v => JsonV.s v
  | none => JsonV.null

/-- Serde-derived serialization of the Documentation section. -/
def Documentation.toJson (d : Documentation) : JsonV :=
  JsonV.obj [("adopters", JsonV.b d.adopters),
             ("code_of_conduct", JsonV.b d.code_of_conduct),
             ("contributing", JsonV.b d.contributing),
             ("changelog", JsonV.b d.changelog),
             ("governance", JsonV.b d.governance),
             ("maintainers", JsonV.b d.maintainers),
             ("readme", JsonV.b d.readme),
             ("roadmap", JsonV.b d.roadmap),
             ("website", JsonV.b d.website)]

/-- Serde-derived serialization of the License section. -/
def License.toJson (l : License) : JsonV :=
  JsonV.obj [("approved", optBoolJson l.approved),
             ("scanning", optStrJson l.scanning),
             ("spdx_id", optStrJson l.spdx_id)]

/-- Serde-derived serialization of the BestPractices section. -/
def BestPractices.toJson (b : BestPractices) : JsonV :=
  JsonV.obj [("artifacthub_badge", JsonV.b b.artifacthub_badge),
             ("community_meeting", JsonV.b b.community_meeting),
             ("dco", JsonV.b b.dco),
             ("openssf_badge", JsonV.b b.openssf_badge),
             ("recent_release", JsonV.b b.recent_release)]

/-- Serde-derived serialization of the Security section. -/
def Security.toJson (s : Security) : JsonV :=
  JsonV.obj [("security_policy", JsonV.b s.security_policy)]

/-- Serde-derived serialization of the Legal section. -/
def Legal.toJson (l : Legal) : JsonV :=
  JsonV.obj [("trademark_footer", JsonV.b l.trademark_footer)]

/-- Serde-derived serialization of the whole report. -/
def Report.toJson (r : Report) : JsonV :=
  JsonV.obj [("documentation", r.documentation.toJson),
             ("license", r.license.toJson),
             ("best_practices", r.best_practices.toJson),
             ("security", r.security.toJson),
             ("legal", r.legal.toJson)]

/-- Top-level keys of a serialized object. -/
def JsonV.keys : JsonV → List String
  | JsonV.obj fields => fields.map Prod.fst
  | _ => []

/-- The all-false report produced by the all-false environment. -/
def reportAllFalse : Report :=
  { documentation := ⟨false, false, false, false, false, false, false, false, false⟩
    license := ⟨none, none, none⟩
    best_practices := ⟨false, false, false, false, false⟩
    security := ⟨false⟩
    legal := ⟨false⟩ }

/-- C9: every successfully produced report serializes with all five sections
and every field within them present, whatever the field values are, so the
output schema is identical across runs. -/
theorem C9_schema_stable (env : Env) (t : List Call) (r : Report) (t1 : List Call)
    (_h : lint env t = (Except.ok r, t1)) :
    JsonV.keys (Report.toJson r) =
      ["documentation", "license", "best_practices", "security", "legal"] ∧
    JsonV.keys (Documentation.toJson r.documentation) =
      ["adopters", "code_of_conduct", "contributing", "changelog", "governance",
       "maintainers", "readme", "roadmap", "website"] ∧
    JsonV.keys (License.toJson r.license) = ["approved", "scanning", "spdx_id"] ∧
    JsonV.keys (BestPractices.toJson r.best_practices) =
      ["artifacthub_badge", "community_meeting", "dco", "openssf_badge", "recent_release"] ∧
    JsonV.keys (Security.toJson r.security) = ["security_policy"] ∧
    JsonV.keys (Legal.toJson r.legal) = ["trademark_footer"] :=
  ⟨rfl, rfl, rfl, rfl, rfl, rfl⟩

/-- Witness for C9: the all-false run succeeds and its report carries the
full schema with every "not found" value still present. -/
theorem C9_witness :
    JsonV.keys (Report.toJson reportAllFalse) =
      ["documentation", "license", "best_practices", "security", "legal"] ∧
    JsonV.keys (Documentation.toJson reportAllFalse.documentation) =
      ["adopters", "code_of_conduct", "contributing", "changelog", "governance",
       "maintainers", "readme", "roadmap", "website"] ∧
    JsonV.keys (License.toJson reportAllFalse.license) = ["approved", "scanning", "spdx_id"] ∧
    JsonV.keys (BestPractices.toJson reportAllFalse.best_practices) =
      ["artifacthub_badge", "community_meeting", "dco", "openssf_badge", "recent_release"] ∧
    JsonV.keys (Security.toJson reportAllFalse.security) = ["security_policy"] ∧
    JsonV.keys (Legal.toJson reportAllFalse.legal) = ["trademark_footer"] :=
  C9_schema_stable envAllFalse [] reportAllFalse _ (by rfl)

/-- The first primitive invoked by a computation, with its arguments. -/
def FirstCall (m : LintM Bool) (c : Call) : Prop :=
  ∀ t, ∃ rest, (m t).2 = t ++ c :: rest

theorem firstCall_call (c : Call) (r : Except LintErr Bool) : FirstCall (call c r) c :=
  fun _ => ⟨[], rfl⟩

theorem firstCall_orL {x y : LintM Bool} {c : Call} (hx : FirstCall x c) (hy : Clean y) :
    FirstCall (orL x y) c := by
  intro t
  obtain ⟨rest, hrest⟩ := hx t
  unfold orL
  rcases hxt : x t with ⟨r, t1⟩
  have ht1 : t1 = t ++ c :: rest := by rw [hxt] at hrest; exact hrest
  cases r with
  | ok b =>
    cases b with
    | true => exact ⟨rest, by simp [ht1]⟩
    | false =>
      refine ⟨rest ++ (y []).2, ?_⟩
      show (y t1).2 = t ++ c :: (rest ++ (y []).2)
      rw [hy t1]
      simp [ht1]
  | error e => exact ⟨rest, by simp [ht1]⟩

/-- Modelled from the spec: the path-existence evidence primitive
(check::path::exists, whose code is outside the given source) is "true iff
at least one filesystem entry matches any of the patterns, applying
case-sensitivity as configured", and the static glob patterns (patterns.rs,
also outside the given source) are file-name stems such as README*;
matching a stem pattern means the file name starts with the stem, folded to
lower case when the check is case-insensitive. -/
def patternStems : PatternSet → List String
  | PatternSet.adoptersFile => ["ADOPTERS"]
  | PatternSet.codeOfConductFile => ["CODE_OF_CONDUCT"]
  | PatternSet.contributingFile => ["CONTRIBUTING"]
  | PatternSet.changelogFile => ["CHANGELOG"]
  | PatternSet.governanceFile => ["GOVERNANCE"]
  | PatternSet.maintainersFile => ["MAINTAINERS"]
  | PatternSet.readmeFile => ["README"]
  | PatternSet.roadmapFile => ["ROADMAP"]
  | PatternSet.securityPolicyFile => ["SECURITY"]
  | PatternSet.licenseFile => ["LICENSE"]

/-- Modelled from the spec: stem matching with the configured
case-sensitivity, computed over the underlying character lists. -/
def stemMatch (p f : String) (cs : Bool) : Bool :=
  if cs then List.isPrefixOf p.data f.data
  else List.isPrefixOf (p.data.map Char.toLower) (f.data.map Char.toLower)

/-- Modelled from the spec: path existence over a listed filesystem. -/
def pathExistsModel (files : List String) (ps : PatternSet) (cs : Bool) : Bool :=
  files.any fun f => (patternStems ps).any fun p => stemMatch p f cs

/-- Environment whose path checks run over the modelled filesystem and
whose other sources all report false / absent. -/
def envOfFiles (files : List String) : Env where
  pathExists := fun ps cs => Except.ok (pathExistsModel files ps cs)
  contentMatches := fun _ _ _ => Except.ok false
  contentFind := fun _ _ _ => Except.ok none
  hasDefaultCommunityHealthFile := fun _ => Except.ok false
  lastReleaseBodyMatches := fun _ => Except.ok false
  commitsHaveDcoSignature := Except.ok false
  lastPrHasDcoCheck := Except.ok false
  hasRecentRelease := Except.ok false
  remoteMatches := fun _ _ => Except.ok false
  licenseDetect := fun _ _ => Except.ok none
  isApproved := fun _ => false
  metadataLoad := Except.ok none
  getGithubMetadata := Except.ok { homepage := none, license := none }

/-- C10: the readme item is a single case-sensitive path-existence check,
while every other documentation file-existence check passes the
case-insensitive flag; over the modelled filesystem, a repository whose
readme file differs from the README pattern only in letter case yields
readme false (while the same lower-case trick still satisfies the
case-insensitive adopters check). -/
theorem C10_readme_case_sensitivity :
    (∀ env t, readme env t = (env.pathExists PatternSet.readmeFile true,
        t ++ [Call.pathExists PatternSet.readmeFile true])) ∧
    (∀ env, FirstCall (adopters env) (Call.pathExists PatternSet.adoptersFile false)) ∧
    (∀ env, FirstCall (code_of_conduct env)
        (Call.pathExists PatternSet.codeOfConductFile false)) ∧
    (∀ env, FirstCall (contributing env) (Call.pathExists PatternSet.contributingFile false)) ∧
    (∀ env, FirstCall (changelog env) (Call.pathExists PatternSet.changelogFile false)) ∧
    (∀ env, FirstCall (governance env) (Call.pathExists PatternSet.governanceFile false)) ∧
    (∀ env, FirstCall (maintainers env) (Call.pathExists PatternSet.maintainersFile false)) ∧
    (∀ env, FirstCall (roadmap env) (Call.pathExists PatternSet.roadmapFile false)) ∧
    pathExistsModel ["readme.md"] PatternSet.readmeFile true = false ∧
    pathExistsModel ["readme.md"] PatternSet.readmeFile false = true ∧
    (∃ doc t1, lint_documentation (envOfFiles ["readme.md", "adopters.md"]) ghNone [] =
        (Except.ok doc, t1) ∧ doc.readme = false ∧ doc.adopters = true) := by
  refine ⟨fun env t => rfl, ?_, ?_, ?_, ?_, ?_, ?_, ?_, by decide, by decide, ?_⟩
  · exact fun env => firstCall_orL (firstCall_call _ _) (clean_call _ _)
  · exact fun env =>
      firstCall_orL (firstCall_orL (firstCall_call _ _) (clean_call _ _)) (clean_call _ _)
  · exact fun env =>
      firstCall_orL (firstCall_orL (firstCall_call _ _) (clean_call _ _)) (clean_call _ _)
  · exact fun env =>
      firstCall_orL (firstCall_orL (firstCall_call _ _) (clean_call _ _)) (clean_call _ _)
  · exact fun env => firstCall_orL (firstCall_call _ _) (clean_call _ _)
  · exact fun env => firstCall_call _ _
  · exact fun env => firstCall_orL (firstCall_call _ _) (clean_call _ _)
  · exact ⟨⟨true, false, false, false, false, false, false, false, false⟩,
      [Call.pathExists PatternSet.adoptersFile false,
       Call.pathExists PatternSet.codeOfConductFile false,
       Call.contentMatches PatternSet.readmeFile true Pat.codeOfConductHeader,
       Call.hasDefaultCommunityHealthFile "CODE_OF_CONDUCT.md",
       Call.pathExists PatternSet.contributingFile false,
       Call.contentMatches PatternSet.readmeFile true Pat.contributingHeader,
       Call.hasDefaultCommunityHealthFile "CONTRIBUTING.md",
       Call.pathExists PatternSet.changelogFile false,
       Call.contentMatches PatternSet.readmeFile true Pat.changelogHeader,
       Call.lastReleaseBodyMatches Pat.changelogRelease,
       Call.pathExists PatternSet.governanceFile false,
       Call.contentMatches PatternSet.readmeFile true Pat.governanceHeader,
       Call.pathExists PatternSet.maintainersFile false,
       Call.pathExists PatternSet.readmeFile true,
       Call.pathExists PatternSet.roadmapFile false,
       Call.contentMatches PatternSet.readmeFile true Pat.roadmapHeader],
      by rfl, rfl, rfl⟩

end Clomonitor
